import Mathlib

/-!
Shallow embedding of `humanfriendly/testing.py` (scoped test-environment
primitives) and proofs about its context managers and helpers.

Python objects with mutable attributes are modelled as functions
`N → Option V` (a `none` entry means the attribute/key is absent);
mutation is modelled by explicit state passing.  Fallible Python
operations (`delattr` on a missing attribute, `dict.__getitem__` /
`__delitem__` on a missing key, `shutil.rmtree` on a missing path)
return `Except PyExc`.  The `NOTHING` sentinel used by the source to
record "attribute/key was absent at enter time" is modelled by the
dedicated constructor `OriginalValue.nothing`, distinct by construction
from every stored value `OriginalValue.value v`.
-/

/-- Kinds of Python exceptions that the modelled code can raise. -/
inductive PyExc where
  | attributeError
  | keyError
  | fileNotFoundError
  | assertionError
  deriving DecidableEq

/-- Model of the `original_value` field of `PatchedAttribute` / `PatchedItem`:
either the unique `NOTHING` sentinel (line 44: `NOTHING = object()`) or a
legitimate stored value.  `nothing` is distinct from `value v` for every `v`,
mirroring the fact that `NOTHING` is a fresh object identity. -/
inductive OriginalValue (V : Type) where
  | nothing
  | value (v : V)
  deriving DecidableEq

/-- Model of `getattr(obj, name, NOTHING)` (line 182): the attribute's value
when present, the `NOTHING` sentinel when absent. -/
def getattrDefault {N V : Type} (obj : N → Option V) (name : N) : OriginalValue V :=
  match obj name with
  | some v => OriginalValue.value v
  | none => OriginalValue.nothing

/-- Model of `setattr(obj, name, v)` (lines 183, 194). -/
def setattrFun {N V : Type} [DecidableEq N] (obj : N → Option V) (name : N) (v : V) :
    N → Option V :=
  Function.update obj name (some v)

/-- Model of `delattr(obj, name)` (line 192); raises `AttributeError` when the
attribute is absent. -/
def delattrFun {N V : Type} [DecidableEq N] (obj : N → Option V) (name : N) :
    Except PyExc (N → Option V) :=
  match obj name with
  | some _ => Except.ok (Function.update obj name none)
  | none => Except.error PyExc.attributeError

/-- Model of `obj[item]` on a mapping (line 224); raises `KeyError` when the
key is absent. -/
def getitemFun {N V : Type} (obj : N → Option V) (key : N) : Except PyExc V :=
  match obj key with
  | some v => Except.ok v
  | none => Except.error PyExc.keyError

/-- Model of `obj[item] = v` (lines 227, 238). -/
def setitemFun {N V : Type} [DecidableEq N] (obj : N → Option V) (key : N) (v : V) :
    N → Option V :=
  Function.update obj key (some v)

/-- Model of `del obj[item]` (line 236); raises `KeyError` when the key is
absent. -/
def delitemFun {N V : Type} [DecidableEq N] (obj : N → Option V) (key : N) :
    Except PyExc (N → Option V) :=
  match obj key with
  | some _ => Except.ok (Function.update obj key none)
  | none => Except.error PyExc.keyError

/-- State of a `PatchedAttribute` instance (lines 156-171).  The patched
object itself is external mutable state and is threaded separately. -/
structure PatchedAttribute (N V : Type) where
  attribute_to_patch : N
  patched_value : V
  original_value : OriginalValue V

/-- Model of `PatchedAttribute.__init__` (lines 160-171): `original_value`
starts out as the `NOTHING` sentinel. -/
def PatchedAttribute.init {N V : Type} (name : N) (v : V) : PatchedAttribute N V :=
  { attribute_to_patch := name, patched_value := v,
    original_value := OriginalValue.nothing }

/-- Model of `PatchedAttribute.__enter__` (lines 173-184): record the original
value via `getattr(..., NOTHING)`, then `setattr` the patched value.  Returns
the updated instance state and the updated object. -/
def PatchedAttribute.enter {N V : Type} [DecidableEq N]
    (pa : PatchedAttribute N V) (obj : N → Option V) :
    PatchedAttribute N V × (N → Option V) :=
  let pa1 := { pa with original_value := getattrDefault obj pa.attribute_to_patch }
  (pa1, setattrFun obj pa1.attribute_to_patch pa1.patched_value)

/-- Model of `PatchedAttribute.__exit__` (lines 186-194): when the recorded
original is the `NOTHING` sentinel, `delattr` the attribute; otherwise
`setattr` the original value back. -/
def PatchedAttribute.exit {N V : Type} [DecidableEq N]
    (pa : PatchedAttribute N V) (obj : N → Option V) : Except PyExc (N → Option V) :=
  match pa.original_value with
  | OriginalValue.nothing => delattrFun obj pa.attribute_to_patch
  | OriginalValue.value v => Except.ok (setattrFun obj pa.attribute_to_patch v)

/-- State of a `PatchedItem` instance (lines 197-212). -/
structure PatchedItem (N V : Type) where
  item_to_patch : N
  patched_value : V
  original_value : OriginalValue V

/-- Model of `PatchedItem.__init__` (lines 201-212). -/
def PatchedItem.init {N V : Type} (key : N) (v : V) : PatchedItem N V :=
  { item_to_patch := key, patched_value := v,
    original_value := OriginalValue.nothing }

/-- Model of `PatchedItem.__enter__` (lines 214-228): `try: original_value =
obj[item] except KeyError: original_value = NOTHING`, then set the item. -/
def PatchedItem.enter {N V : Type} [DecidableEq N]
    (pi : PatchedItem N V) (obj : N → Option V) :
    PatchedItem N V × (N → Option V) :=
  let recorded :=
    match getitemFun obj pi.item_to_patch with
    | Except.ok v => OriginalValue.value v
    | Except.error _ => OriginalValue.nothing
  let pi1 := { pi with original_value := recorded }
  (pi1, setitemFun obj pi1.item_to_patch pi1.patched_value)

/-- Model of `PatchedItem.__exit__` (lines 230-238): delete the key when the
recorded original is the `NOTHING` sentinel, otherwise set it back. -/
def PatchedItem.exit {N V : Type} [DecidableEq N]
    (pi : PatchedItem N V) (obj : N → Option V) : Except PyExc (N → Option V) :=
  match pi.original_value with
  | OriginalValue.nothing => delitemFun obj pi.item_to_patch
  | OriginalValue.value v => Except.ok (setitemFun obj pi.item_to_patch v)

/-- C1: entering and then exiting a `PatchedAttribute` (resp. `PatchedItem`)
scope leaves the target's attribute (resp. key) state exactly as before: an
attribute/key that existed with value `v` (any value, falsy ones included,
since `V` is arbitrary) again has exactly value `v`, and one that was absent
is truly absent afterwards; absence is recorded at enter time via the
`NOTHING` sentinel, which is distinct from every legitimate value. -/
theorem patched_scopes_restore_state {N V : Type} [DecidableEq N]
    (obj : N → Option V) (name : N) (v : V) :
    PatchedAttribute.exit ((PatchedAttribute.init name v).enter obj).1
      ((PatchedAttribute.init name v).enter obj).2 = Except.ok obj
    ∧ PatchedItem.exit ((PatchedItem.init name v).enter obj).1
      ((PatchedItem.init name v).enter obj).2 = Except.ok obj
    ∧ ∀ w : V, (OriginalValue.nothing : OriginalValue V) ≠ OriginalValue.value w := by
  refine ⟨?_, ?_, ?_⟩
  · cases h : obj name with
    | none =>
        simp only [PatchedAttribute.exit, PatchedAttribute.enter, PatchedAttribute.init,
          getattrDefault, delattrFun, setattrFun, h, Function.update_same]
        congr 1
        funext k
        by_cases hk : k = name
        · subst hk; simp [Function.update_same, h]
        · simp [Function.update_noteq hk]
    | some w =>
        simp only [PatchedAttribute.exit, PatchedAttribute.enter, PatchedAttribute.init,
          getattrDefault, setattrFun, h]
        congr 1
        funext k
        by_cases hk : k = name
        · subst hk; simp [Function.update_same, h]
        · simp [Function.update_noteq hk]
  · cases h : obj name with
    | none =>
        simp only [PatchedItem.exit, PatchedItem.enter, PatchedItem.init,
          getitemFun, delitemFun, setitemFun, h, Function.update_same]
        congr 1
        funext k
        by_cases hk : k = name
        · subst hk; simp [Function.update_same, h]
        · simp [Function.update_noteq hk]
    | some w =>
        simp only [PatchedItem.exit, PatchedItem.enter, PatchedItem.init,
          getitemFun, setitemFun, h]
        congr 1
        funext k
        by_cases hk : k = name
        · subst hk; simp [Function.update_same, h]
        · simp [Function.update_noteq hk]
  · intro w h
    exact OriginalValue.noConfusion h

/-- Model of Python strings (paths, `$PATH` values, program names). -/
abbrev PyStr : Type := List Char

/-- Model of `os.pathsep` (the platform path separator, `:` on POSIX). -/
def os_pathsep : Char := ':'

/-- Model of `os.defpath` (the platform default search path). -/
def os_defpath : PyStr := ":/bin:/usr/bin".toList

/-- Model of `shutil.rmtree(d)` (line 283) on a filesystem modelled as the
set of existing paths: removes the directory when it exists, raises when the
path is missing. -/
def rmtree (d : PyStr) (fs : PyStr → Bool) : Except PyExc (PyStr → Bool) :=
  if fs d then Except.ok (Function.update fs d false)
  else Except.error PyExc.fileNotFoundError

/-- State of a standalone `TemporaryDirectory` instance (lines 241-263):
the `temporary_directory` field is `none` until enter and again after exit. -/
structure TemporaryDirectory where
  temporary_directory : Option PyStr

/-- Model of `TemporaryDirectory.__enter__` (lines 265-275): `tempfile.mkdtemp`
is modelled by an explicitly supplied fresh directory name `d`, which is
created in the filesystem, stored in the instance and returned. -/
def TemporaryDirectory_enter (d : PyStr) (st : TemporaryDirectory) (fs : PyStr → Bool) :
    TemporaryDirectory × (PyStr → Bool) × PyStr :=
  ({ st with temporary_directory := some d }, Function.update fs d true, d)

/-- Model of `TemporaryDirectory.__exit__` (lines 277-284): when
`temporary_directory` is not `None`, `shutil.rmtree` it and clear the field
to `None`; otherwise do nothing. -/
def TemporaryDirectory_exit (st : TemporaryDirectory) (fs : PyStr → Bool) :
    Except PyExc (TemporaryDirectory × (PyStr → Bool)) :=
  match st.temporary_directory with
  | none => Except.ok (st, fs)
  | some d =>
      match rmtree d fs with
      | Except.ok fs1 => Except.ok ({ st with temporary_directory := none }, fs1)
      | Except.error e => Except.error e

/-- C9: after a `TemporaryDirectory` enter, the first exit succeeds, deletes
the directory and clears the stored path to `none`; exiting the same scope a
second time is a no-op that does not raise. -/
theorem temporaryDirectory_exit_idempotent (st : TemporaryDirectory)
    (fs : PyStr → Bool) (d : PyStr) :
    TemporaryDirectory_exit (TemporaryDirectory_enter d st fs).1
        (TemporaryDirectory_enter d st fs).2.1 =
      Except.ok ({ temporary_directory := none },
        Function.update (Function.update fs d true) d false)
    ∧ (Function.update (Function.update fs d true) d false) d = false
    ∧ TemporaryDirectory_exit { temporary_directory := none }
        (Function.update (Function.update fs d true) d false) =
      Except.ok ({ temporary_directory := none },
        Function.update (Function.update fs d true) d false) := by
  refine ⟨?_, ?_, rfl⟩
  · simp [TemporaryDirectory_exit, TemporaryDirectory_enter, rmtree,
      Function.update_same]
  · simp [Function.update_same]

/-- Model of the process state that `CustomSearchPath` touches: the
`os.environ['PATH']` entry (`none` when the key is absent) and the
filesystem. -/
structure World where
  searchPath : Option PyStr
  fs : PyStr → Bool

/-- Observable teardown effects of a `CustomSearchPath` exit: removal of a
temporary directory (`shutil.rmtree`, line 283) and restoration of the
`'PATH'` entry (lines 235-238), the latter tagged with the restored
original (deletion when the recorded original was the `NOTHING` sentinel). -/
inductive TeardownEvent where
  | directoryRemoved (d : PyStr)
  | searchPathRestored (original : OriginalValue PyStr)
  deriving DecidableEq

/-- Model of the `current_search_path` property (lines 335-338):
`os.environ.get('PATH', os.defpath)`. -/
def current_search_path (w : World) : PyStr :=
  w.searchPath.getD os_defpath

/-- Model of `try: os.environ['PATH'] except KeyError: NOTHING`
(lines 223-226 as executed on `os.environ` with key `'PATH'`). -/
def tryGetSearchPath (w : World) : OriginalValue PyStr :=
  match w.searchPath with
  | some p => OriginalValue.value p
  | none => OriginalValue.nothing

/-- State of a `CustomSearchPath` instance (lines 287-308), flattening the
fields inherited from `PatchedItem` (whose `object_to_patch` is `os.environ`
and `item_to_patch` is `'PATH'`) and from `TemporaryDirectory`. -/
structure CustomSearchPath where
  isolated_search_path : Bool
  patched_value : PyStr
  original_value : OriginalValue PyStr
  temporary_directory : Option PyStr

/-- Model of `CustomSearchPath.__init__` (lines 296-308): `PatchedItem` is
initialized with value `self.current_search_path` (evaluated now), and
`TemporaryDirectory` with no directory. -/
def CustomSearchPath.init (isolated : Bool) (w : World) : CustomSearchPath :=
  { isolated_search_path := isolated,
    patched_value := current_search_path w,
    original_value := OriginalValue.nothing,
    temporary_directory := none }

/-- Model of `TemporaryDirectory.__enter__` (lines 265-275) as invoked on a
`CustomSearchPath` instance; its own `super()` call reaches the no-op
`ContextManager.__enter__`.  The fresh name `d` stands for the directory
created by `tempfile.mkdtemp()`. -/
def TemporaryDirectory_enter_mro (d : PyStr) (st : CustomSearchPath) (w : World) :
    CustomSearchPath × World × PyStr :=
  ({ st with temporary_directory := some d },
   { w with fs := Function.update w.fs d true }, d)

/-- Model of `PatchedItem.__enter__` (lines 214-228) as invoked on a
`CustomSearchPath` instance: in the method resolution order
`[CustomSearchPath, PatchedItem, TemporaryDirectory, ContextManager]` the
`super(PatchedItem, self).__enter__()` call on line 221 resolves to
`TemporaryDirectory.__enter__`, so a second temporary directory `d2` is
created (overwriting `temporary_directory`) before the `'PATH'` entry is
recorded and patched. -/
def PatchedItem_enter_mro (d2 : PyStr) (st : CustomSearchPath) (w : World) :
    CustomSearchPath × World :=
  let r := TemporaryDirectory_enter_mro d2 st w
  let st2 := { r.1 with original_value := tryGetSearchPath r.2.1 }
  (st2, { r.2.1 with searchPath := some st2.patched_value })

/-- Model of `CustomSearchPath.__enter__` (lines 310-329): create the
temporary directory `d1` via the explicit `TemporaryDirectory.__enter__(self)`
call, compute the patched value (the directory alone when isolated, otherwise
`os.pathsep.join([directory] + self.current_search_path.split(os.pathsep))`),
then run `PatchedItem.__enter__(self)` and return the directory. -/
def CustomSearchPath_enter (d1 d2 : PyStr) (st : CustomSearchPath) (w : World) :
    CustomSearchPath × World × PyStr :=
  let r := TemporaryDirectory_enter_mro d1 st w
  let directory := r.2.2
  let st2 := { r.1 with patched_value :=
      (if r.1.isolated_search_path then directory
       else List.intercalate [os_pathsep]
        (directory :: (current_search_path r.2.1).splitOn os_pathsep)) }
  let r2 := PatchedItem_enter_mro d2 st2 r.2.1
  (r2.1, r2.2, directory)

/-- Model of `TemporaryDirectory.__exit__` (lines 277-284) as invoked on a
`CustomSearchPath` instance, also reporting the teardown events it performs. -/
def TemporaryDirectory_exit_mro (st : CustomSearchPath) (w : World) :
    Except PyExc (CustomSearchPath × World × List TeardownEvent) :=
  match st.temporary_directory with
  | none => Except.ok (st, w, [])
  | some d =>
      match rmtree d w.fs with
      | Except.ok fs1 =>
          Except.ok ({ st with temporary_directory := none }, { w with fs := fs1 },
            [TeardownEvent.directoryRemoved d])
      | Except.error e => Except.error e

/-- Model of `PatchedItem.__exit__` (lines 230-238) as invoked on a
`CustomSearchPath` instance: the `super(PatchedItem, self).__exit__(...)`
call on line 233 resolves to `TemporaryDirectory.__exit__` in the method
resolution order, so the temporary directory is removed BEFORE the `'PATH'`
entry is restored (deleted when the recorded original was `NOTHING`,
line 236, else set back, line 238). -/
def PatchedItem_exit_mro (st : CustomSearchPath) (w : World) :
    Except PyExc (CustomSearchPath × World × List TeardownEvent) :=
  match TemporaryDirectory_exit_mro st w with
  | Except.error e => Except.error e
  | Except.ok r =>
      match r.1.original_value with
      | OriginalValue.nothing =>
          match r.2.1.searchPath with
          | some _ =>
              Except.ok (r.1, { r.2.1 with searchPath := none },
                r.2.2 ++ [TeardownEvent.searchPathRestored OriginalValue.nothing])
          | none => Except.error PyExc.keyError
      | OriginalValue.value p =>
          Except.ok (r.1, { r.2.1 with searchPath := some p },
            r.2.2 ++ [TeardownEvent.searchPathRestored (OriginalValue.value p)])

/-- Model of `CustomSearchPath.__exit__` (lines 331-333):
`super(CustomSearchPath, self).__exit__(...)` resolves to
`PatchedItem.__exit__`. -/
def CustomSearchPath_exit (st : CustomSearchPath) (w : World) :
    Except PyExc (CustomSearchPath × World × List TeardownEvent) :=
  PatchedItem_exit_mro st w

/-- Teardown events of a `CustomSearchPath` exit result (`none` when the exit
raised). -/
def exitEventsOf (r : Except PyExc (CustomSearchPath × World × List TeardownEvent)) :
    Option (List TeardownEvent) :=
  match r with
  | Except.ok x => some x.2.2
  | Except.error _ => none

/-- Resulting world of a `CustomSearchPath` exit result (`none` when the exit
raised). -/
def exitWorldOf (r : Except PyExc (CustomSearchPath × World × List TeardownEvent)) :
    Option World :=
  match r with
  | Except.ok x => some x.2.1
  | Except.error _ => none

/-- Helper: `List.intercalate` on a cons with a nonempty tail. -/
theorem intercalate_cons_of_ne_nil {α : Type} (sep a : List α) (l : List (List α))
    (h : l ≠ []) :
    List.intercalate sep (a :: l) = a ++ sep ++ List.intercalate sep l := by
  cases l with
  | nil => exact absurd rfl h
  | cons b t => simp [List.intercalate, List.intersperse]

/-- Helper: splitting a string never yields the empty list of fragments. -/
theorem splitOn_ne_nil_chars (x : Char) (xs : PyStr) : xs.splitOn x ≠ [] := by
  simp only [List.splitOn]
  exact List.splitOnP_ne_nil _ xs

/-- Helper: `os.pathsep.join([d] + p.split(os.pathsep))` equals
`d + os.pathsep + p`. -/
theorem patched_value_join (d p : PyStr) :
    List.intercalate [os_pathsep] (d :: p.splitOn os_pathsep) = d ++ os_pathsep :: p := by
  rw [intercalate_cons_of_ne_nil _ _ _ (splitOn_ne_nil_chars _ _),
    List.intercalate_splitOn p os_pathsep]
  simp

/-- C3 (amended): on every exit of a `CustomSearchPath` scope the two
teardown effects happen with the directory removal FIRST and the search-path
restoration SECOND: `super(CustomSearchPath).__exit__` is `PatchedItem.__exit__`,
whose own `super()` call runs `TemporaryDirectory.__exit__` (removing the
most recently created temporary directory, `d2`) before the `'PATH'` entry is
restored.  This is the opposite of reverse-order-of-acquisition. -/
theorem customSearchPath_teardown_order (iso : Bool) (w : World) (d1 d2 : PyStr) :
    exitEventsOf (CustomSearchPath_exit
        (CustomSearchPath_enter d1 d2 (CustomSearchPath.init iso w) w).1
        (CustomSearchPath_enter d1 d2 (CustomSearchPath.init iso w) w).2.1) =
      some [TeardownEvent.directoryRemoved d2,
        TeardownEvent.searchPathRestored (tryGetSearchPath w)] := by
  cases h : w.searchPath with
  | none =>
      simp [CustomSearchPath_exit, PatchedItem_exit_mro, TemporaryDirectory_exit_mro,
        CustomSearchPath_enter, PatchedItem_enter_mro, TemporaryDirectory_enter_mro,
        CustomSearchPath.init, tryGetSearchPath, rmtree, exitEventsOf, h,
        Function.update_same]
  | some p =>
      simp [CustomSearchPath_exit, PatchedItem_exit_mro, TemporaryDirectory_exit_mro,
        CustomSearchPath_enter, PatchedItem_enter_mro, TemporaryDirectory_enter_mro,
        CustomSearchPath.init, tryGetSearchPath, rmtree, exitEventsOf, h,
        Function.update_same]

/-- C3 counterexample: at a concrete scope (original `$PATH` equal to
`/usr/bin`, temporary directories `/ta` and `/tb`) the exit's teardown trace
is directory-removal first and search-path restoration second, and is NOT
the restore-then-remove trace the claim asserts. -/
theorem customSearchPath_teardown_order_cex :
    exitEventsOf (CustomSearchPath_exit
        (CustomSearchPath_enter "/ta".toList "/tb".toList
          (CustomSearchPath.init false
            { searchPath := some "/usr/bin".toList, fs := fun _ => false })
          { searchPath := some "/usr/bin".toList, fs := fun _ => false }).1
        (CustomSearchPath_enter "/ta".toList "/tb".toList
          (CustomSearchPath.init false
            { searchPath := some "/usr/bin".toList, fs := fun _ => false })
          { searchPath := some "/usr/bin".toList, fs := fun _ => false }).2.1) =
      some [TeardownEvent.directoryRemoved "/tb".toList,
        TeardownEvent.searchPathRestored (OriginalValue.value "/usr/bin".toList)]
    ∧ exitEventsOf (CustomSearchPath_exit
        (CustomSearchPath_enter "/ta".toList "/tb".toList
          (CustomSearchPath.init false
            { searchPath := some "/usr/bin".toList, fs := fun _ => false })
          { searchPath := some "/usr/bin".toList, fs := fun _ => false }).1
        (CustomSearchPath_enter "/ta".toList "/tb".toList
          (CustomSearchPath.init false
            { searchPath := some "/usr/bin".toList, fs := fun _ => false })
          { searchPath := some "/usr/bin".toList, fs := fun _ => false }).2.1) ≠
      some [TeardownEvent.searchPathRestored (OriginalValue.value "/usr/bin".toList),
        TeardownEvent.directoryRemoved "/tb".toList] := by
  exact ⟨rfl, by decide⟩

/-- C7: while a `CustomSearchPath` scope over a present `'PATH'` entry `p` is
active, the environment's search-path value is the new temporary directory
alone when isolated, and the directory followed by `os.pathsep` followed by
`p` otherwise; on exit the original value `p` is restored verbatim. -/
theorem customSearchPath_env_value (iso : Bool) (w : World) (d1 d2 p : PyStr)
    (h : w.searchPath = some p) :
    (CustomSearchPath_enter d1 d2 (CustomSearchPath.init iso w) w).2.1.searchPath =
      some (if iso then d1 else d1 ++ os_pathsep :: p)
    ∧ Option.map World.searchPath (exitWorldOf (CustomSearchPath_exit
        (CustomSearchPath_enter d1 d2 (CustomSearchPath.init iso w) w).1
        (CustomSearchPath_enter d1 d2 (CustomSearchPath.init iso w) w).2.1)) =
      some (some p) := by
  constructor
  · simp [CustomSearchPath_enter, PatchedItem_enter_mro, TemporaryDirectory_enter_mro,
      CustomSearchPath.init, current_search_path, h, patched_value_join]
  · simp [CustomSearchPath_exit, PatchedItem_exit_mro, TemporaryDirectory_exit_mro,
      CustomSearchPath_enter, PatchedItem_enter_mro, TemporaryDirectory_enter_mro,
      CustomSearchPath.init, tryGetSearchPath, rmtree, exitWorldOf, h,
      Function.update_same]

/-- C7 witness: the property at a concrete non-isolated scope with original
search path `b`, temporary directories `a` and `c`. -/
theorem customSearchPath_env_value_witness :
    (CustomSearchPath_enter ['a'] ['c']
        (CustomSearchPath.init false { searchPath := some ['b'], fs := fun _ => false })
        { searchPath := some ['b'], fs := fun _ => false }).2.1.searchPath =
      some (if false then ['a'] else ['a'] ++ os_pathsep :: ['b'])
    ∧ Option.map World.searchPath (exitWorldOf (CustomSearchPath_exit
        (CustomSearchPath_enter ['a'] ['c']
          (CustomSearchPath.init false { searchPath := some ['b'], fs := fun _ => false })
          { searchPath := some ['b'], fs := fun _ => false }).1
        (CustomSearchPath_enter ['a'] ['c']
          (CustomSearchPath.init false { searchPath := some ['b'], fs := fun _ => false })
          { searchPath := some ['b'], fs := fun _ => false }).2.1)) =
      some (some ['b']) :=
  customSearchPath_env_value false { searchPath := some ['b'], fs := fun _ => false }
    ['a'] ['c'] ['b'] rfl

/-- C10: when the environment has no `'PATH'` entry at enter time, the
non-isolated patched value is built from `os.defpath`, the entry is recorded
as absent via the `NOTHING` sentinel, and exit deletes the `'PATH'` entry
entirely (true absence, not the default search path). -/
theorem customSearchPath_absent_search_path (w : World) (d1 d2 : PyStr)
    (h : w.searchPath = none) :
    (CustomSearchPath_enter d1 d2 (CustomSearchPath.init false w) w).1.patched_value =
      d1 ++ os_pathsep :: os_defpath
    ∧ (CustomSearchPath_enter d1 d2 (CustomSearchPath.init false w) w).1.original_value =
      OriginalValue.nothing
    ∧ Option.map World.searchPath (exitWorldOf (CustomSearchPath_exit
        (CustomSearchPath_enter d1 d2 (CustomSearchPath.init false w) w).1
        (CustomSearchPath_enter d1 d2 (CustomSearchPath.init false w) w).2.1)) =
      some none := by
  refine ⟨?_, ?_, ?_⟩
  · simp [CustomSearchPath_enter, PatchedItem_enter_mro, TemporaryDirectory_enter_mro,
      CustomSearchPath.init, current_search_path, h, patched_value_join]
  · simp [CustomSearchPath_enter, PatchedItem_enter_mro, TemporaryDirectory_enter_mro,
      CustomSearchPath.init, tryGetSearchPath, h]
  · simp [CustomSearchPath_exit, PatchedItem_exit_mro, TemporaryDirectory_exit_mro,
      CustomSearchPath_enter, PatchedItem_enter_mro, TemporaryDirectory_enter_mro,
      CustomSearchPath.init, tryGetSearchPath, rmtree, exitWorldOf, h,
      Function.update_same]

/-- C10 witness: the property at a concrete scope whose environment lacks a
`'PATH'` entry. -/
theorem customSearchPath_absent_search_path_witness :
    (CustomSearchPath_enter ['a'] ['c']
        (CustomSearchPath.init false { searchPath := none, fs := fun _ => false })
        { searchPath := none, fs := fun _ => false }).1.patched_value =
      ['a'] ++ os_pathsep :: os_defpath
    ∧ (CustomSearchPath_enter ['a'] ['c']
        (CustomSearchPath.init false { searchPath := none, fs := fun _ => false })
        { searchPath := none, fs := fun _ => false }).1.original_value =
      OriginalValue.nothing
    ∧ Option.map World.searchPath (exitWorldOf (CustomSearchPath_exit
        (CustomSearchPath_enter ['a'] ['c']
          (CustomSearchPath.init false { searchPath := none, fs := fun _ => false })
          { searchPath := none, fs := fun _ => false }).1
        (CustomSearchPath_enter ['a'] ['c']
          (CustomSearchPath.init false { searchPath := none, fs := fun _ => false })
          { searchPath := none, fs := fun _ => false }).2.1)) =
      some none :=
  customSearchPath_absent_search_path { searchPath := none, fs := fun _ => false }
    ['a'] ['c'] rfl

/-- State of a `MockedProgram` instance (lines 341-362): its own fields plus
the inherited `CustomSearchPath` state. -/
structure MockedProgram where
  program_name : PyStr
  program_returncode : Int
  program_signal_file : Option PyStr
  toCustomSearchPath : CustomSearchPath

/-- Model of `MockedProgram.__init__` (lines 349-362): no signal file yet;
the superclass is initialized as a non-isolated `CustomSearchPath`. -/
def MockedProgram.init (name : PyStr) (returncode : Int) (w : World) : MockedProgram :=
  { program_name := name, program_returncode := returncode,
    program_signal_file := none,
    toCustomSearchPath := CustomSearchPath.init false w }

/-- Model of `MockedProgram.__enter__` (lines 364-379): run the inherited
enter, compute the signal-file pathname
`os.path.join(directory, 'program-was-run-' + random_string(10))` (the random
token is the explicit argument `token`), write the executable shell script at
`os.path.join(directory, name)` and `chmod 0o755` it.  The signal file itself
is NOT created here; only running the script creates it. -/
def MockedProgram_enter (d1 d2 token : PyStr) (st : MockedProgram) (w : World) :
    MockedProgram × World × PyStr :=
  let r := CustomSearchPath_enter d1 d2 st.toCustomSearchPath w
  let directory := r.2.2
  let signalFile := directory ++ '/' :: ("program-was-run-".toList ++ token)
  let pathname := directory ++ '/' :: st.program_name
  ({ st with toCustomSearchPath := r.1, program_signal_file := some signalFile },
   { r.2.1 with fs := Function.update r.2.1.fs pathname true }, directory)

/-- Model of executing the generated shell script (lines 374-377): it creates
the signal file (`echo > signal_file`) and exits with the configured return
code. -/
def runMockedProgram (st : MockedProgram) (w : World) : World :=
  match st.program_signal_file with
  | some f => { w with fs := Function.update w.fs f true }
  | none => w

/-- Condition of the `assert` on lines 389-390:
`self.program_signal_file and os.path.isfile(self.program_signal_file)`. -/
def MockedProgram.assertionHolds (st : MockedProgram) (w : World) : Bool :=
  match st.program_signal_file with
  | some f => w.fs f
  | none => false

/-- Model of `MockedProgram.__exit__` (lines 381-392):
`try: assert ... finally: return super(MockedProgram, self).__exit__(...)`.
By Python semantics a `return` statement inside a `finally` block discards
the exception pending from the `try` block, so the `AssertionError` raised
when `assertionHolds` is false never propagates to the caller: the overall
result is exactly the inherited exit's result, whether or not the assertion
held. -/
def MockedProgram_exit (st : MockedProgram) (w : World) :
    Except PyExc (MockedProgram × World × List TeardownEvent) :=
  match CustomSearchPath_exit st.toCustomSearchPath w with
  | Except.ok r => Except.ok ({ st with toCustomSearchPath := r.1 }, r.2.1, r.2.2)
  | Except.error e => Except.error e

/-- Resulting world of a `MockedProgram` exit result (`none` when the exit
raised). -/
def mpExitWorldOf (r : Except PyExc (MockedProgram × World × List TeardownEvent)) :
    Option World :=
  match r with
  | Except.ok x => some x.2.1
  | Except.error _ => none

/-- Whether a `MockedProgram` exit result is a raised exception. -/
def mpExitRaises (r : Except PyExc (MockedProgram × World × List TeardownEvent)) :
    Bool :=
  match r with
  | Except.ok _ => false
  | Except.error _ => true

/-- C2 (code evaluation at the failing input): for a concrete `MockedProgram`
scope whose mock program is never run, the assert condition is false, yet
`__exit__` raises nothing — the `AssertionError` is discarded by the `return`
inside the `finally` block — while the inherited cleanup still happens (the
search path is restored and the latest temporary directory removed); and when
the program IS run before exit, the assertion holds and exit succeeds with
the search path restored. -/
theorem mockedProgram_exit_swallows_assertion :
    MockedProgram.assertionHolds
        (MockedProgram_enter "/ta".toList "/tb".toList "tok".toList
          (MockedProgram.init "prog".toList 0
            { searchPath := some "/usr/bin".toList, fs := fun _ => false })
          { searchPath := some "/usr/bin".toList, fs := fun _ => false }).1
        (MockedProgram_enter "/ta".toList "/tb".toList "tok".toList
          (MockedProgram.init "prog".toList 0
            { searchPath := some "/usr/bin".toList, fs := fun _ => false })
          { searchPath := some "/usr/bin".toList, fs := fun _ => false }).2.1 = false
    ∧ mpExitRaises (MockedProgram_exit
        (MockedProgram_enter "/ta".toList "/tb".toList "tok".toList
          (MockedProgram.init "prog".toList 0
            { searchPath := some "/usr/bin".toList, fs := fun _ => false })
          { searchPath := some "/usr/bin".toList, fs := fun _ => false }).1
        (MockedProgram_enter "/ta".toList "/tb".toList "tok".toList
          (MockedProgram.init "prog".toList 0
            { searchPath := some "/usr/bin".toList, fs := fun _ => false })
          { searchPath := some "/usr/bin".toList, fs := fun _ => false }).2.1) = false
    ∧ Option.map World.searchPath (mpExitWorldOf (MockedProgram_exit
        (MockedProgram_enter "/ta".toList "/tb".toList "tok".toList
          (MockedProgram.init "prog".toList 0
            { searchPath := some "/usr/bin".toList, fs := fun _ => false })
          { searchPath := some "/usr/bin".toList, fs := fun _ => false }).1
        (MockedProgram_enter "/ta".toList "/tb".toList "tok".toList
          (MockedProgram.init "prog".toList 0
            { searchPath := some "/usr/bin".toList, fs := fun _ => false })
          { searchPath := some "/usr/bin".toList, fs := fun _ => false }).2.1)) =
      some (some "/usr/bin".toList)
    ∧ Option.map (fun w => w.fs "/tb".toList) (mpExitWorldOf (MockedProgram_exit
        (MockedProgram_enter "/ta".toList "/tb".toList "tok".toList
          (MockedProgram.init "prog".toList 0
            { searchPath := some "/usr/bin".toList, fs := fun _ => false })
          { searchPath := some "/usr/bin".toList, fs := fun _ => false }).1
        (MockedProgram_enter "/ta".toList "/tb".toList "tok".toList
          (MockedProgram.init "prog".toList 0
            { searchPath := some "/usr/bin".toList, fs := fun _ => false })
          { searchPath := some "/usr/bin".toList, fs := fun _ => false }).2.1)) =
      some false
    ∧ MockedProgram.assertionHolds
        (MockedProgram_enter "/ta".toList "/tb".toList "tok".toList
          (MockedProgram.init "prog".toList 0
            { searchPath := some "/usr/bin".toList, fs := fun _ => false })
          { searchPath := some "/usr/bin".toList, fs := fun _ => false }).1
        (runMockedProgram
          (MockedProgram_enter "/ta".toList "/tb".toList "tok".toList
            (MockedProgram.init "prog".toList 0
              { searchPath := some "/usr/bin".toList, fs := fun _ => false })
            { searchPath := some "/usr/bin".toList, fs := fun _ => false }).1
          (MockedProgram_enter "/ta".toList "/tb".toList "tok".toList
            (MockedProgram.init "prog".toList 0
              { searchPath := some "/usr/bin".toList, fs := fun _ => false })
            { searchPath := some "/usr/bin".toList, fs := fun _ => false }).2.1) = true
    ∧ Option.map World.searchPath (mpExitWorldOf (MockedProgram_exit
        (MockedProgram_enter "/ta".toList "/tb".toList "tok".toList
          (MockedProgram.init "prog".toList 0
            { searchPath := some "/usr/bin".toList, fs := fun _ => false })
          { searchPath := some "/usr/bin".toList, fs := fun _ => false }).1
        (runMockedProgram
          (MockedProgram_enter "/ta".toList "/tb".toList "tok".toList
            (MockedProgram.init "prog".toList 0
              { searchPath := some "/usr/bin".toList, fs := fun _ => false })
            { searchPath := some "/usr/bin".toList, fs := fun _ => false }).1
          (MockedProgram_enter "/ta".toList "/tb".toList "tok".toList
            (MockedProgram.init "prog".toList 0
              { searchPath := some "/usr/bin".toList, fs := fun _ => false })
            { searchPath := some "/usr/bin".toList, fs := fun _ => false }).2.1))) =
      some (some "/usr/bin".toList) := by
  refine ⟨rfl, rfl, rfl, ?_, ?_, rfl⟩
  · decide
  · decide

/-- Outcome of one invocation of the callable passed to `retry` (line 86):
a non-`False` return value, the `False` return value, an exception of the
retried type `exc_type`, or an exception of any other type. -/
inductive AttemptResult (A E I : Type) where
  | value (v : A)
  | returnsFalse
  | raisesRetried (e : E)
  | raisesOther (e : I)

/-- Observable result of a `retry` run: the returned value, a re-raised
retried exception, the `CallableTimedOut` exception (line 94, class on
lines 139-141), or a propagated exception of another type. -/
inductive RetryOutcome (A E I : Type) where
  | returned (v : A)
  | raisedRetried (e : E)
  | timedOut
  | raisedOther (e : I)
  deriving DecidableEq

/-- Model of the loop of `retry` (lines 84-97).  `deadline` is the
precomputed `timeout + time.time()` of line 83; each list entry pairs the
outcome of one invocation of `func` with the value `time.time()` takes at
the post-attempt deadline check (lines 90 and 93).  `none` means the supplied
attempt list was exhausted with the loop still running. -/
def retryRun {A E I : Type} (deadline : ℚ) :
    List (AttemptResult A E I × ℚ) → Option (RetryOutcome A E I)
  | [] => none
  | (a, t) :: rest =>
      match a with
      | AttemptResult.value v => some (RetryOutcome.returned v)
      | AttemptResult.returnsFalse =>
          if deadline < t then some RetryOutcome.timedOut else retryRun deadline rest
      | AttemptResult.raisesRetried e =>
          if deadline < t then some (RetryOutcome.raisedRetried e)
          else retryRun deadline rest
      | AttemptResult.raisesOther e => some (RetryOutcome.raisedOther e)

/-- C5: an invocation returning any value other than boolean `False` makes
`retry` return that value immediately; once the deadline has passed, the most
recent retried-type exception is re-raised when the last attempt raised one
(line 91 `raise`), and the distinct `CallableTimedOut` exception is raised
when the last attempt returned `False` (line 94); an operation that only ever
returns `False` can never cause a retried-type exception to be raised. -/
theorem retry_termination_semantics {A E I : Type} (deadline t : ℚ) (v : A) (e : E)
    (rest attempts : List (AttemptResult A E I × ℚ)) :
    retryRun deadline ((AttemptResult.value v, t) :: rest) =
      some (RetryOutcome.returned v)
    ∧ (deadline < t →
        retryRun deadline ((AttemptResult.raisesRetried e, t) :: rest) =
          some (RetryOutcome.raisedRetried e))
    ∧ (deadline < t →
        retryRun deadline ((AttemptResult.returnsFalse, t) :: rest) =
          some RetryOutcome.timedOut)
    ∧ ((∀ x ∈ attempts, x.1 = AttemptResult.returnsFalse) →
        ∀ e2 : E, retryRun deadline attempts ≠ some (RetryOutcome.raisedRetried e2)) := by
  refine ⟨rfl, ?_, ?_, ?_⟩
  · intro h
    simp [retryRun, if_pos h]
  · intro h
    simp [retryRun, if_pos h]
  · intro hall e2
    induction attempts with
    | nil => simp [retryRun]
    | cons x tl ih =>
        obtain ⟨a, t1⟩ := x
        have ha : a = AttemptResult.returnsFalse := hall (a, t1) (by simp)
        subst ha
        by_cases ht : deadline < t1
        · simp [retryRun, if_pos ht]
        · simp only [retryRun, if_neg ht]
          exact ih fun y hy => hall y (by simp [hy])

/-- C5 witness: the post-deadline cases at concrete inputs (deadline 0,
observed time 1). -/
theorem retry_termination_semantics_witness :
    retryRun (0 : ℚ) [((AttemptResult.raisesRetried 7 : AttemptResult Nat Nat Nat), 1)] =
      some (RetryOutcome.raisedRetried 7)
    ∧ retryRun (0 : ℚ) [((AttemptResult.returnsFalse : AttemptResult Nat Nat Nat), 1)] =
      some RetryOutcome.timedOut :=
  ⟨(@retry_termination_semantics Nat Nat Nat 0 1 5 7 [] []).2.1 (by norm_num),
   (@retry_termination_semantics Nat Nat Nat 0 1 5 7 [] []).2.2.1 (by norm_num)⟩

/-- Model of the sleep durations of `retry` (lines 82, 95-97): `pause` starts
at `0.1`; after each sleep, `pause` is doubled whenever its pre-doubling
value is below `1`.  `pauseSeq n` is the duration of the sleep following the
`(n+1)`-st attempt. -/
def pauseSeq : Nat → ℚ
  | 0 => 1 / 10
  | n + 1 =>
      let p := pauseSeq n
      if p < 1 then 2 * p else p

/-- C6 (code evaluation at the failing input): the sleep durations are
0.1, 0.2, 0.4, 0.8 and then 1.6 from the fifth sleep on — the fifth and all
later sleeps exceed the claimed 1.0 cap, because line 96 doubles the pause
from 0.8 straight to 1.6 before the `pause < 1` guard stops further
doubling. -/
theorem retry_sleep_exceeds_cap :
    pauseSeq 0 = 1 / 10 ∧ pauseSeq 1 = 1 / 5 ∧ pauseSeq 2 = 2 / 5
    ∧ pauseSeq 3 = 4 / 5 ∧ pauseSeq 4 = 8 / 5 ∧ pauseSeq 5 = 8 / 5
    ∧ ¬ pauseSeq 4 ≤ 1 := by
  norm_num [pauseSeq]

/-- Behaviour of the entry point passed to `run_cli` (line 130): it returns
normally, raises `SystemExit` with an explicit code (`sys.exit(code)`),
raises `SystemExit` with code `None` (a bare `sys.exit()`), or raises an
exception of some other type `I`. -/
inductive EntryOutcome (I : Type) where
  | returnsNormally
  | sysExitCode (code : Int)
  | sysExitNoCode
  | raises (e : I)

/-- Model of `run_cli` (lines 100-136).  `sys.argv` is patched to
`[program_name] + arguments` (lines 125-127) and handed to the entry point,
which reports its outcome together with the text it wrote to the captured
standard output; `SystemExit` is intercepted with `returncode = e.code`
(an `Option Int`, since a bare `sys.exit()` carries code `None`), a normal
return yields return code `0` (line 135), and any other exception propagates
out (modelled as `Except.error`).  The returned pair is
`(returncode, output.getvalue())`. -/
def run_cli {I : Type} (program_name : PyStr) (arguments : List PyStr)
    (entry_point : List PyStr → EntryOutcome I × PyStr) :
    Except I (Option Int × PyStr) :=
  let argv := program_name :: arguments
  let r := entry_point argv
  match r.1 with
  | EntryOutcome.returnsNormally => Except.ok (some (0 : Int), r.2)
  | EntryOutcome.sysExitCode c => Except.ok (some c, r.2)
  | EntryOutcome.sysExitNoCode => Except.ok (none, r.2)
  | EntryOutcome.raises e => Except.error e

/-- C4 (code evaluation, including the failing input): an explicit exit code
becomes the return code, a normal return yields return code 0, any other
exception propagates uncaught, and the returned pair is the return code with
the captured output — but an exit signalled WITHOUT a code yields return
code `None` (modelled `none`), not the integer 0 the claim states. -/
theorem run_cli_returncode_semantics {I : Type} (e : I) (pn arg out : PyStr) :
    run_cli pn [arg] (fun _ => ((EntryOutcome.sysExitCode 3 : EntryOutcome I), out)) =
      Except.ok (some (3 : Int), out)
    ∧ run_cli pn [arg] (fun _ => ((EntryOutcome.returnsNormally : EntryOutcome I), out)) =
      Except.ok (some (0 : Int), out)
    ∧ run_cli pn [arg] (fun _ => ((EntryOutcome.raises e : EntryOutcome I), out)) =
      Except.error e
    ∧ run_cli pn [arg] (fun _ => ((EntryOutcome.sysExitNoCode : EntryOutcome I), out)) =
      Except.ok ((none : Option Int), out)
    ∧ (none : Option Int) ≠ some 0 := by
  exact ⟨rfl, rfl, rfl, rfl, by decide⟩

/-- Names of the three stream attributes of `sys` patched by
`CaptureOutput` (line 413). -/
inductive StreamName where
  | stdin
  | stdout
  | stderr
  deriving DecidableEq

/-- State of a `CaptureOutput` instance (lines 395-414).  The three
`StringIO` buffers are modelled by object identities (`Nat`): `stdin` is the
buffer pre-seeded with the supplied input text, and `stderr` is the very
same object as `stdout` when `merged` is true (line 410); buffer contents
are immaterial to the patching behaviour modelled here. -/
structure CaptureOutput where
  stdin : Nat
  stdout : Nat
  stderr : Nat
  patched_attributes : List (PatchedAttribute StreamName Nat)

/-- Model of `CaptureOutput.__init__` (lines 399-414): fresh buffers 0 (the
stdin buffer) and 1 (the stdout buffer); the stderr buffer is the stdout
object when merging, else a fresh buffer 2; one `PatchedAttribute` of `sys`
per stream name, built in the fixed order `('stdin', 'stdout', 'stderr')`. -/
def CaptureOutput.init (merged : Bool) : CaptureOutput :=
  { stdin := 0, stdout := 1, stderr := if merged then 1 else 2,
    patched_attributes :=
      [PatchedAttribute.init StreamName.stdin 0,
       PatchedAttribute.init StreamName.stdout 1,
       PatchedAttribute.init StreamName.stderr (if merged then 1 else 2)] }

/-- Activation of the patch list as in `CaptureOutput.__enter__`
(lines 428-429): `for context in self.patched_attributes:
context.__enter__()`, iterating the list in order; the returned trace records
which stream attribute each step patched, in execution order. -/
def applyPatches :
    List (PatchedAttribute StreamName Nat) → (StreamName → Option Nat) →
      List (PatchedAttribute StreamName Nat) × (StreamName → Option Nat) × List StreamName
  | [], sys => ([], sys, [])
  | pa :: rest, sys =>
      let r := PatchedAttribute.enter pa sys
      let r2 := applyPatches rest r.2
      (r.1 :: r2.1, r2.2.1, pa.attribute_to_patch :: r2.2.2)

/-- Model of `CaptureOutput.__enter__` (lines 425-430): apply every patch,
in list order, before returning. -/
def CaptureOutput_enter (co : CaptureOutput) (sys : StreamName → Option Nat) :
    CaptureOutput × (StreamName → Option Nat) × List StreamName :=
  let r := applyPatches co.patched_attributes sys
  ({ co with patched_attributes := r.1 }, r.2.1, r.2.2)

/-- Deactivation of the patch list as in `CaptureOutput.__exit__`
(lines 435-436): `for context in self.patched_attributes:
context.__exit__(...)` — the SAME forward iteration order as enter, not the
reverse; the returned trace records which stream attribute each step
restored, in execution order. -/
def exitPatches :
    List (PatchedAttribute StreamName Nat) → (StreamName → Option Nat) →
      Except PyExc ((StreamName → Option Nat) × List StreamName)
  | [], sys => Except.ok (sys, [])
  | pa :: rest, sys =>
      match PatchedAttribute.exit pa sys with
      | Except.ok sys1 =>
          match exitPatches rest sys1 with
          | Except.ok r => Except.ok (r.1, pa.attribute_to_patch :: r.2)
          | Except.error e => Except.error e
      | Except.error e => Except.error e

/-- Model of `CaptureOutput.__exit__` (lines 432-436). -/
def CaptureOutput_exit (co : CaptureOutput) (sys : StreamName → Option Nat) :
    Except PyExc ((StreamName → Option Nat) × List StreamName) :=
  exitPatches co.patched_attributes sys

/-- Deactivation trace of a `CaptureOutput` exit result (`none` when the exit
raised). -/
def exitStreamEvents
    (r : Except PyExc ((StreamName → Option Nat) × List StreamName)) :
    Option (List StreamName) :=
  match r with
  | Except.ok x => some x.2
  | Except.error _ => none

/-- C8 (amended): `CaptureOutput` enter applies one `PatchedAttribute` per
stream in the fixed order stdin, stdout, stderr, activating all three before
returning, and `CaptureOutput` exit deactivates the patches in that SAME
order (the list is iterated forward both times), not in reverse. -/
theorem captureOutput_patch_order (merged : Bool) (sys : StreamName → Option Nat) :
    (CaptureOutput_enter (CaptureOutput.init merged) sys).2.2 =
      [StreamName.stdin, StreamName.stdout, StreamName.stderr]
    ∧ exitStreamEvents (CaptureOutput_exit
        (CaptureOutput_enter (CaptureOutput.init merged) sys).1
        (CaptureOutput_enter (CaptureOutput.init merged) sys).2.1) =
      some [StreamName.stdin, StreamName.stdout, StreamName.stderr] := by
  constructor
  · rfl
  · cases h1 : sys StreamName.stdin <;> cases h2 : sys StreamName.stdout <;>
      cases h3 : sys StreamName.stderr <;>
      simp [CaptureOutput_exit, CaptureOutput_enter, CaptureOutput.init,
        applyPatches, exitPatches, exitStreamEvents, PatchedAttribute.enter,
        PatchedAttribute.exit, PatchedAttribute.init, getattrDefault, setattrFun,
        delattrFun, Function.update, h1, h2, h3]

/-- C8 counterexample: at a concrete `sys` whose three stream attributes are
all present, the deactivation trace equals the activation order
stdin, stdout, stderr and is NOT the reverse of the activation order that the
claim asserts. -/
theorem captureOutput_patch_order_cex :
    exitStreamEvents (CaptureOutput_exit
        (CaptureOutput_enter (CaptureOutput.init false) (fun _ => some 5)).1
        (CaptureOutput_enter (CaptureOutput.init false) (fun _ => some 5)).2.1) =
      some [StreamName.stdin, StreamName.stdout, StreamName.stderr]
    ∧ exitStreamEvents (CaptureOutput_exit
        (CaptureOutput_enter (CaptureOutput.init false) (fun _ => some 5)).1
        (CaptureOutput_enter (CaptureOutput.init false) (fun _ => some 5)).2.1) ≠
      some (List.reverse
        (CaptureOutput_enter (CaptureOutput.init false) (fun _ => some 5)).2.2) := by
  exact ⟨rfl, by decide⟩
